import Mathlib

set_option maxHeartbeats 1000000
set_option maxRecDepth 4000

/-!
Shallow embedding of the BLKOUT IVOR backend chat core.

The embedding covers:
* the persona engine (`src/services/ivor.persona.ts`): prompt enhancement,
  response post-processing, fallback knowledge lookup;
* the AI provider client (`src/services/groq.service.ts`): the bounded
  retry loop of `generateResponse`;
* the chat orchestrator (the SQLite-backed `router.post('/')` chat route):
  validation, conversation resolution, the three-tier
  provider / fallback / emergency degradation, and the persisted metadata;
* the conversation store (`src/database/sqlite.service.ts` together with the
  SQLite schema): conversations, messages, feedback, and their constraints.

Modelling conventions, stated once:
* JavaScript strings are Lean `String`s; `toLowerCase`, `trim` and
  `includes` are modelled structurally on the underlying character list
  (ASCII case folding, as used by every keyword in the source).
* `Math.random`-driven choices (the generic fallback pick) are an explicit
  `Fin 5` input; the random id generator of the store is modelled as a
  fresh counter (the source draws random ids and assumes uniqueness).
* JavaScript numbers that the code only ever passes through verbatim
  (the confidence values 0.95 / 0.85 / 0.7) are stored in hundredths as
  `Nat` (95 / 85 / 70); no arithmetic is ever performed on them.
* `await`ed calls that can throw are functions into `Except`; the AI
  provider is an oracle `Nat → Except String String` giving each attempt's
  outcome (`.ok ""` covers an absent/empty completion body).
* SQLite's `datetime('now')` is a logical clock that ticks on every write.
-/

/-- Boolean test that the first character list starts with the second. -/
def listStartsWith : List Char → List Char → Bool
  | _, [] => true
  | [], _ :: _ => false
  | c :: cs, p :: ps => c == p && listStartsWith cs ps

/-- Boolean test that `pat` occurs contiguously inside the second list. -/
def listHasSub (pat : List Char) : List Char → Bool
  | [] => listStartsWith [] pat
  | c :: cs => listStartsWith (c :: cs) pat || listHasSub pat cs

/-- JavaScript `String.prototype.includes`: `pat` is a contiguous substring of `s`. -/
def strIncludes (s pat : String) : Bool := listHasSub pat.data s.data

/-- JavaScript `String.prototype.toLowerCase`, on the character list (ASCII). -/
def strToLower (s : String) : String := ⟨s.data.map Char.toLower⟩

/-- Drop whitespace from both ends of a character list. -/
def trimChars (l : List Char) : List Char :=
  ((l.dropWhile Char.isWhitespace).reverse.dropWhile Char.isWhitespace).reverse

/-- JavaScript `String.prototype.trim`, on the character list. -/
def strTrim (s : String) : String := ⟨trimChars s.data⟩

/-! ## Persona engine (`src/services/ivor.persona.ts`) -/

/-- Record held in the `communityKnowledge` map of `IvorPersona`. -/
structure CommunityResponse where
  message : String
  context : String
  resources : List String
deriving DecidableEq

/-- Static topic table built by `initializeCommunityKnowledge`, in insertion
order (a JavaScript `Map` iterates in insertion order). -/
def communityKnowledge : List (String × CommunityResponse) :=
  [("mental health",
    { message := "I understand how important mental health is, especially as a QTIPOC person in the UK. You might find support through the NHS IAPT services, or community-specific support like Black Thrive BQC in South London. Many of us find strength in community connection too.",
      context := "mental_health_support",
      resources := ["NHS IAPT", "Black Thrive BQC", "Mind", "LGBT Foundation"] }),
   ("housing",
    { message := "Housing struggles are unfortunately common in our community. If you're facing homelessness or housing insecurity, The Outside Project offers LGBTQ+ specific housing support. Shelter and your local council's housing team can also help with your rights and options.",
      context := "housing_support",
      resources := ["Outside Project", "Shelter", "Local Council Housing", "Crisis"] }),
   ("benefits",
    { message := "Navigating the benefits system can be overwhelming. Citizens Advice offers free, confidential support with benefit claims and appeals. If you're LGBTQ+ and facing discrimination, the LGBT Foundation also has welfare rights advice.",
      context := "financial_support",
      resources := ["Citizens Advice", "LGBT Foundation", "Turn2us", "StepChange"] }),
   ("coming out",
    { message := "Coming out is a deeply personal journey, and there's no 'right' way or timeline. The LGBT Foundation has great resources, and locally, organizations like Gendered Intelligence (for trans experiences) offer community support. You know yourself best.",
      context := "identity_support",
      resources := ["LGBT Foundation", "Gendered Intelligence", "Stonewall", "Local LGBT+ groups"] }),
   ("discrimination",
    { message := "I'm sorry you're experiencing discrimination. You have rights under the Equality Act 2010. ACAS offers free employment advice, and the Equality and Human Rights Commission can guide you on legal options. Remember, you deserve to be treated with dignity.",
      context := "legal_rights",
      resources := ["ACAS", "EHRC", "LGBT Foundation", "Citizens Advice"] }),
   ("healthcare",
    { message := "Accessing affirming healthcare can be challenging. If you're trans, the NHS Gender Identity Clinics have long waits, but CliniQ offers community-specific sexual health services. For general healthcare concerns, don't be afraid to advocate for yourself with your GP.",
      context := "healthcare_access",
      resources := ["CliniQ", "NHS", "Terrence Higgins Trust", "Local sexual health clinics"] })]

/-- Fixed generic warm fallback messages of `getFallbackResponse`. -/
def fallbackResponses : List String :=
  ["I'm here with you, even when technology isn't working perfectly. The BLKOUT community is built on resilience and mutual support. What you're feeling and experiencing matters.",
   "Technology might be giving me some challenges right now, but our community connection is stronger than any technical difficulty. I'm still here to listen and support you.",
   "I want to support you properly, but I'm having some technical difficulties at the moment. What I can tell you is that you're part of a powerful QTIPOC community that cares about you.",
   "While I work through some technical issues, please know that your voice and experiences are valued in our community. Is there something specific I can help you with when I'm back to full capacity?",
   "I'm experiencing some connectivity issues, but I don't want to leave you without support. The BLKOUT community has many resources and people who care. Your wellbeing matters to all of us."]

/-- Fallback lookup of `IvorPersona.getFallbackResponse`: first topic of the
knowledge table whose keyword occurs in the lowercased message, else one of
the five generic responses; the `Math.random` index is the `rand` input. -/
def getFallbackResponse (userMessage : String) (rand : Fin 5) : String :=
  let lowerMessage := strToLower userMessage
  match communityKnowledge.find? (fun kv => strIncludes lowerMessage kv.1) with
  | some kv => kv.2.message
  | none => fallbackResponses.get (Fin.cast (by decide) rand)

/-- Support-seeking keywords of `isSeekingSupport`. -/
def supportKeywords : List String :=
  ["help", "struggling", "difficult", "hard", "lonely", "sad",
   "depressed", "anxious", "worried", "scared", "alone"]

/-- `IvorPersona.isSeekingSupport`. -/
def isSeekingSupport (message : String) : Bool :=
  supportKeywords.any (fun keyword => strIncludes (strToLower message) keyword)

/-- Resource-seeking keywords of `needsUKResources`. -/
def resourceKeywords : List String :=
  ["housing", "benefits", "nhs", "mental health", "support",
   "help", "services", "legal", "rights", "discrimination"]

/-- `IvorPersona.needsUKResources`. -/
def needsUKResources (message : String) : Bool :=
  resourceKeywords.any (fun keyword => strIncludes (strToLower message) keyword)

/-- `IvorPersona.getRelevantUKResources`: the five keyword-pair branches, in
source order, each pushing its resource names when it matches. -/
def getRelevantUKResources (message : String) : List String :=
  let lowerMessage := strToLower message
  (if strIncludes lowerMessage "mental health" || strIncludes lowerMessage "therapy" then
    ["NHS IAPT", "Black Thrive BQC"] else []) ++
  (if strIncludes lowerMessage "housing" || strIncludes lowerMessage "homeless" then
    ["Outside Project", "Shelter"] else []) ++
  (if strIncludes lowerMessage "benefits" || strIncludes lowerMessage "money" then
    ["Citizens Advice", "Turn2us"] else []) ++
  (if strIncludes lowerMessage "work" || strIncludes lowerMessage "job" then
    ["ACAS", "LGBT Foundation"] else []) ++
  (if strIncludes lowerMessage "trans" || strIncludes lowerMessage "gender" then
    ["Gendered Intelligence", "CliniQ"] else [])

/-- Fixed empathetic opener prepended by `processResponse`. -/
def ivorOpener : String := "I understand what you're going through. "

/-- Fixed community-solidarity sentence appended by `processResponse`. -/
def solidaritySentence : String :=
  "\n\nRemember, you're part of a strong community. We're here for each other."

/-- Condition under which `processResponse` prepends the opener: the AI reply
lacks both first-person markers. -/
def needsPersonalTone (aiResponse : String) : Bool :=
  !strIncludes aiResponse "I " && !strIncludes aiResponse "I'm"

/-- UK-resource suffix appended by `processResponse` (`join(', ')`). -/
def ukResourcesSuffix (resources : List String) : String :=
  "\n\nSome UK resources that might help: " ++ String.intercalate ", " resources

/-- `IvorPersona.processResponse`, statement for statement. -/
def processResponse (aiResponse originalMessage : String) : String :=
  let r1 := if needsPersonalTone aiResponse then ivorOpener ++ aiResponse else aiResponse
  let r2 := if isSeekingSupport originalMessage then r1 ++ solidaritySentence else r1
  if needsUKResources originalMessage then
    let ukResources := getRelevantUKResources originalMessage
    if ukResources.length > 0 then r2 ++ ukResourcesSuffix ukResources else r2
  else r2

/-- Opener segment of a post-processed reply: the fixed opener exactly when
the AI reply lacks a first-person marker, else nothing. -/
def openerPart (aiResponse : String) : String :=
  if needsPersonalTone aiResponse then ivorOpener else ""

/-- Solidarity segment of a post-processed reply: the fixed sentence exactly
when the original message is support-seeking, else nothing. -/
def solidarityPart (originalMessage : String) : String :=
  if isSeekingSupport originalMessage then solidaritySentence else ""

/-- UK-resource segment of a post-processed reply. -/
def ukPart (originalMessage : String) : String :=
  if needsUKResources originalMessage then
    if (getRelevantUKResources originalMessage).length > 0 then
      ukResourcesSuffix (getRelevantUKResources originalMessage)
    else ""
  else ""

/-- The keyword-pairs-to-resources table of `getRelevantUKResources`, as
data in source declaration order; `getRelevantUKResources` is proved equal
to the ordered union of the rows whose keywords match. -/
def ukResourceTable : List (List String × List String) :=
  [(["mental health", "therapy"], ["NHS IAPT", "Black Thrive BQC"]),
   (["housing", "homeless"], ["Outside Project", "Shelter"]),
   (["benefits", "money"], ["Citizens Advice", "Turn2us"]),
   (["work", "job"], ["ACAS", "LGBT Foundation"]),
   (["trans", "gender"], ["Gendered Intelligence", "CliniQ"])]

/-- Fixed prefix of the persona prompt template of `enhancePrompt`
(everything before the interpolated user message). -/
def personaContextPre : String :=
  "\nYou are IVOR, a community AI assistant for BLKOUT, inspired by Ivor Cummings (1916-1991). \nYou embody warmth, wisdom, and deep community knowledge.\n\nYOUR IDENTITY:\n- You are knowledgeable about QTIPOC (Queer, Trans, Intersex People of Colour) experiences\n- You understand UK systems: NHS, benefits, housing, legal rights\n- You speak with warmth and authenticity, never patronizing\n- You connect people to community resources and mutual aid\n- You honor intersectionality: race, sexuality, gender, class, disability\n\nYOUR COMMUNICATION STYLE:\n- Use \"I\" statements naturally\n- Be conversational and warm, like talking to a friend\n- Share knowledge without lecturing\n- Acknowledge struggles while highlighting resilience\n- Connect individual issues to community strength\n\nUK COMMUNITY RESOURCES YOU KNOW:\n- BLKOUT UK: Black LGBTQ+ community organization\n- Black Thrive BQC: Queer and trans support in Brixton\n- UK Black Pride: Annual celebration and year-round community\n- Gendered Intelligence: Trans community support\n- Outside Project: LGBTQ+ homelessness support\n- LGBT Foundation: National support services\n\nRESPOND TO: \""

/-- Fixed suffix of the persona prompt template of `enhancePrompt`. -/
def personaContextPost : String :=
  "\"\n\nRemember: You're here to support, connect, and empower the QTIPOC community with authentic care."

/-- `IvorPersona.enhancePrompt`: the fixed template around the user message. -/
def enhancePrompt (userMessage : String) : String :=
  personaContextPre ++ userMessage ++ personaContextPost

/-! ## AI provider client (`src/services/groq.service.ts`) -/

/-- `GroqService.maxRetries`. -/
def groqMaxRetries : Nat := 3

/-- `GroqService.retryDelay` (milliseconds). -/
def groqRetryDelay : Nat := 1000

/-- Outcome of one loop iteration of `generateResponse`: the provider call
may throw (`.error`), and an empty/absent completion body is turned into the
thrown `Empty response from GROQ API`; a non-empty body is returned trimmed. -/
def attemptResult (provider : Nat → Except String String) (attempt : Nat) :
    Except String String :=
  match provider attempt with
  | .error e => .error e
  | .ok content =>
      if content = "" then .error "Empty response from GROQ API"
      else .ok (strTrim content)

/-- Retry loop of `generateResponse` over the remaining attempt numbers.
Returns the result together with the list of backoff delays awaited, in
order; no delay is awaited after the final attempt. -/
def generateGo (provider : Nat → Except String String) :
    List Nat → String → Except String String × List Nat
  | [], lastError =>
      (.error ("GROQ API failed after " ++ toString groqMaxRetries ++
        " attempts: " ++ lastError), [])
  | attempt :: rest, _ =>
      match attemptResult provider attempt with
      | .ok reply => (.ok reply, [])
      | .error e =>
          let out := generateGo provider rest e
          if rest.isEmpty then out else (out.1, groqRetryDelay * attempt :: out.2)

/-- `GroqService.generateResponse`: attempts `1, 2, 3` (`maxRetries = 3`),
waiting `retryDelay * attempt` between consecutive attempts, surfacing
`GROQ API failed after 3 attempts: <last error>` when all fail. -/
def generateResponse (provider : Nat → Except String String) :
    Except String String × List Nat :=
  generateGo provider [1, 2, 3] ""

/-! ## Chat orchestrator (SQLite-backed `router.post('/')` chat route) -/

/-- Provenance metadata stored with an assistant message (`confidence` in
hundredths: the source's 0.95 / 0.85 are stored as 95 / 85). -/
structure ChatMeta where
  model : String
  source : String
  confidence : Nat
  fallback_reason : Option String
deriving DecidableEq

/-- Metadata stored with a successful provider reply. -/
def groqMeta : ChatMeta :=
  { model := "groq_llama2-70b", source := "groq_api", confidence := 95,
    fallback_reason := none }

/-- Metadata stored with a local-knowledge fallback reply. -/
def fallbackMeta : ChatMeta :=
  { model := "ivor_community_knowledge", source := "qtipoc_local_knowledge",
    confidence := 85, fallback_reason := some "groq_api_unavailable" }

/-- JSON body returned by the chat route (`confidence` in hundredths). -/
structure ChatReply where
  status : Nat
  response : String
  model : String
  source : String
  confidence : Nat
  mode : String
  conversation_id : Option String
deriving DecidableEq

/-- Route result: either the 400 validation rejection or a JSON reply. -/
inductive ChatResponse where
  | badRequest
  | reply (r : ChatReply)
deriving DecidableEq

/-- Abstract conversation store used by the route: `sqliteService` calls that
may succeed or throw, threading a store state `σ`. Quantifying over these
operations captures every combination of store-write success and failure. -/
structure StoreOps (σ : Type) where
  createConversation : σ → Option String → Except Unit String × σ
  addMessage : σ → String → String → String → Option ChatMeta → Except Unit Unit × σ

/-- Static emergency apology of the outer catch of the chat route. -/
def emergencyText : String :=
  "I'm experiencing some technical difficulties right now, but I'm still here for you. " ++
  "The BLKOUT community is strong, and we support each other through all challenges. " ++
  "Please try again in a moment, or reach out through our other community channels."

/-- The 500 emergency JSON body (mode `emergency`, confidence 0.7). -/
def emergencyReply : ChatReply :=
  { status := 500, response := emergencyText, model := "emergency_fallback",
    source := "static_response", confidence := 70, mode := "emergency",
    conversation_id := none }

/-- Express-validator check on the request body:
`body('message').isString().trim().isLength({ min: 1, max: 2000 })`. -/
def validMessage (message : String) : Bool :=
  1 ≤ (strTrim message).length && (strTrim message).length ≤ 2000

/-- Fallback branch of the chat route (the inner `catch (groqError)`): store
the local-knowledge reply; if that write also throws, the outer catch
produces the emergency reply. -/
def chatFallback {σ : Type} (store : StoreOps σ) (rand : Fin 5)
    (msg cid : String) (s : σ) : ChatResponse × σ :=
  let fb := getFallbackResponse msg rand
  match store.addMessage s cid "assistant" fb (some fallbackMeta) with
  | (.ok _, s4) =>
      (.reply { status := 200, response := fb, model := "ivor_community_knowledge",
                source := "qtipoc_local_knowledge", confidence := 85,
                mode := "fallback", conversation_id := some cid }, s4)
  | (.error _, s4) => (.reply emergencyReply, s4)

/-- Body of the chat route after the conversation is resolved: store the
user message, attempt the provider with retries, post-process and store the
assistant reply; the inner catch routes provider or assistant-write failure
to the fallback branch, the outer catch everything else to emergency. -/
def chatTurn {σ : Type} (store : StoreOps σ)
    (provider : String → Nat → Except String String) (rand : Fin 5)
    (msg cid : String) (s1 : σ) : ChatResponse × σ :=
  match store.addMessage s1 cid "user" msg none with
  | (.error _, s2) => (.reply emergencyReply, s2)
  | (.ok _, s2) =>
    match (generateResponse (provider (enhancePrompt msg))).1 with
    | .ok ai =>
      let ivor := processResponse ai msg
      match store.addMessage s2 cid "assistant" ivor (some groqMeta) with
      | (.ok _, s3) =>
          (.reply { status := 200, response := ivor, model := "groq_llama2-70b",
                    source := "groq_api", confidence := 95, mode := "groq",
                    conversation_id := some cid }, s3)
      | (.error _, s3) => chatFallback store rand msg cid s3
    | .error _ => chatFallback store rand msg cid s2

/-- The SQLite-backed chat route `router.post('/')`: validation, conversation
resolution, then `chatTurn`. The provider oracle is indexed by the prompt. -/
def chatPost {σ : Type} (store : StoreOps σ)
    (provider : String → Nat → Except String String) (rand : Fin 5)
    (message : String) (conversationId userId : Option String) (s : σ) :
    ChatResponse × σ :=
  if !validMessage message then (.badRequest, s)
  else
    match (match conversationId with
           | some cid => (Except.ok cid, s)
           | none => store.createConversation s userId) with
    | (.error _, s1) => (.reply emergencyReply, s1)
    | (.ok cid, s1) => chatTurn store provider rand (strTrim message) cid s1

/-- Every store call succeeds (no write ever throws). -/
def StoreTotal {σ : Type} (store : StoreOps σ) : Prop :=
  (∀ s u, ∃ cid s', store.createConversation s u = (.ok cid, s')) ∧
  (∀ s cid role content meta, ∃ s', store.addMessage s cid role content meta = (.ok (), s'))

/-- Store-call record used by the trace instantiation of the route:
conversation id, role, content, metadata. -/
abbrev TraceEntry := String × String × String × Option ChatMeta

/-- Trace store: every write succeeds and is recorded, so the persisted
messages of a run are observable. -/
def traceStore : StoreOps (List TraceEntry) :=
  { createConversation := fun s _ => (.ok "conv", s),
    addMessage := fun s cid role content meta => (.ok (), s ++ [(cid, role, content, meta)]) }

/-! ## Conversation store (`src/database/sqlite.service.ts` + schema) -/

/-- Message role; the schema's `CHECK (role IN ('user', 'assistant'))`. -/
inductive Role where
  | user
  | assistant
deriving DecidableEq

/-- Row of the `conversations` table. -/
structure DBConversation where
  id : Nat
  user_id : Option String
  started_at : Nat
  last_message_at : Nat
deriving DecidableEq

/-- Row of the `messages` table (`metadata` is the stored JSON text). -/
structure DBMessage where
  id : Nat
  conversation_id : Nat
  role : Role
  content : String
  timestamp : Nat
  rating : Option Nat
  metadata : String
deriving DecidableEq

/-- Row of the `feedback` table. -/
structure DBFeedback where
  id : Nat
  message_id : Nat
  rating : Nat
  feedback_text : Option String
  user_id : Option String
deriving DecidableEq

/-- SQLite constraint failures raised by the store. The spec's
`NotFoundError` is a foreign-key violation on a missing parent row; its
`ValidationError` on an out-of-range rating is the `CHECK` violation. -/
inductive DBError where
  | foreignKeyViolation
  | checkViolation
deriving DecidableEq

/-- Database state: ids come from a fresh counter (modelling the random
`generateId`, whose uniqueness the source assumes) and `datetime('now')`
is the `clock`, ticking on every write. -/
structure DB where
  counter : Nat
  clock : Nat
  conversations : List DBConversation
  messages : List DBMessage
  feedback : List DBFeedback
deriving DecidableEq

/-- `SQLiteService.createConversation`: insert a fresh conversation with
`started_at = last_message_at = now` and return the row read back. The
optional `user_id` foreign key to the (never populated) `users` table is not
modelled; no claim depends on it. -/
def createConversation (db : DB) (userId : Option String) : DBConversation × DB :=
  let conv : DBConversation :=
    { id := db.counter, user_id := userId, started_at := db.clock,
      last_message_at := db.clock }
  (conv,
   { db with counter := db.counter + 1, clock := db.clock + 1,
             conversations := db.conversations ++ [conv] })

/-- `SQLiteService.addMessage`: the `INSERT INTO messages` fails with a
foreign-key violation when `conversation_id` references no conversation
(`PRAGMA foreign_keys = ON`); on success the message row is inserted, the
parent conversation's `last_message_at` is updated, and the row is read
back. A failed statement leaves the database unchanged. -/
def addMessage (db : DB) (conversationId : Nat) (role : Role)
    (content : String) (metadata : String) : Except DBError DBMessage × DB :=
  if db.conversations.any (fun c => c.id == conversationId) then
    let m : DBMessage :=
      { id := db.counter, conversation_id := conversationId, role := role,
        content := content, timestamp := db.clock, rating := none,
        metadata := metadata }
    (.ok m,
     { db with counter := db.counter + 1, clock := db.clock + 1,
               conversations := db.conversations.map (fun c =>
                 if c.id == conversationId then { c with last_message_at := db.clock } else c),
               messages := db.messages ++ [m] })
  else (.error .foreignKeyViolation, db)

/-- Fold `addMessage` over a list of `(role, content, metadata)` entries,
collecting the returned rows; stops at the first failure. -/
def appendAll (conversationId : Nat) :
    DB → List (Role × String × String) → Except DBError (List DBMessage) × DB
  | db, [] => (.ok [], db)
  | db, (role, content, metadata) :: rest =>
      match addMessage db conversationId role content metadata with
      | (.error e, db1) => (.error e, db1)
      | (.ok m, db1) =>
          match appendAll conversationId db1 rest with
          | (.error e, db2) => (.error e, db2)
          | (.ok ms, db2) => (.ok (m :: ms), db2)

/-- `SQLiteService.getConversationMessages`:
`SELECT * FROM messages WHERE conversation_id = ? ORDER BY timestamp ASC`. -/
def getConversationMessages (db : DB) (conversationId : Nat) : List DBMessage :=
  List.insertionSort (fun a b => a.timestamp ≤ b.timestamp)
    (db.messages.filter (fun m => m.conversation_id == conversationId))

/-- `SQLiteService.addFeedback`: the `INSERT INTO feedback` enforces
`CHECK (rating >= 1 AND rating <= 5)` and the foreign key to `messages`;
only after a successful insert does the source run
`UPDATE messages SET rating = ? WHERE id = ?`. A failed insert leaves the
database unchanged. The optional `user_id` foreign key is not modelled. -/
def addFeedback (db : DB) (messageId rating : Nat)
    (feedbackText userId : Option String) : Except DBError Unit × DB :=
  if rating < 1 ∨ 5 < rating then (.error .checkViolation, db)
  else if !db.messages.any (fun m => m.id == messageId) then
    (.error .foreignKeyViolation, db)
  else
    let fb : DBFeedback :=
      { id := db.counter, message_id := messageId, rating := rating,
        feedback_text := feedbackText, user_id := userId }
    (.ok (),
     { db with counter := db.counter + 1, clock := db.clock + 1,
               feedback := db.feedback ++ [fb],
               messages := db.messages.map (fun m =>
                 if m.id == messageId then { m with rating := some rating } else m) })

/-- One mutating store operation, for frame reasoning over a message's
fields (the read operations are pure functions of the state). -/
inductive StoreMutation where
  | create (userId : Option String)
  | addMsg (conversationId : Nat) (role : Role) (content metadata : String)
  | feedback (messageId rating : Nat) (feedbackText userId : Option String)

/-- State reached after one mutating store operation (a thrown statement
leaves the state unchanged, as encoded in each operation). -/
def applyMutation (db : DB) : StoreMutation → DB
  | .create userId => (createConversation db userId).2
  | .addMsg cid role content metadata => (addMessage db cid role content metadata).2
  | .feedback mid rating text userId => (addFeedback db mid rating text userId).2

/-- Rating of the message with the given id, when present. -/
def ratingOf (db : DB) (messageId : Nat) : Option (Option Nat) :=
  (db.messages.find? (fun m => m.id == messageId)).map DBMessage.rating

/-! ## Helper lemmas: strings and lists -/

theorem string_eq_empty_of_length {s : String} (h : s.length = 0) : s = "" := by
  cases s with
  | mk data =>
    cases data with
    | nil => rfl
    | cons c cs => simp [String.length] at h

theorem string_ne_empty_of_pos {s : String} (h : 0 < s.length) : s ≠ "" := by
  intro he
  rw [he] at h
  exact absurd h (by decide)

theorem find_eq_filter_head {α : Type} (l : List α) (p : α → Bool) :
    l.find? p = (l.filter p).head? := by
  induction l with
  | nil => rfl
  | cons a t ih =>
    by_cases h : p a
    · rw [List.find?_cons_of_pos _ h, List.filter_cons_of_pos h, List.head?_cons]
    · rw [List.find?_cons_of_neg _ h, List.filter_cons_of_neg h, ih]

/-! ## Helper lemmas: persona engine -/

theorem processResponse_decomp (aiResponse originalMessage : String) :
    processResponse aiResponse originalMessage =
      openerPart aiResponse ++ aiResponse ++ solidarityPart originalMessage ++
        ukPart originalMessage := by
  simp only [processResponse, openerPart, solidarityPart, ukPart]
  split_ifs <;> simp [String.append_empty, String.empty_append]

theorem knowledge_messages_ne_empty :
    ∀ kv ∈ communityKnowledge, kv.2.message ≠ "" := by decide

theorem fallbacks_ne_empty : ∀ s ∈ fallbackResponses, s ≠ "" := by decide

theorem getFallbackResponse_ne_empty (msg : String) (rand : Fin 5) :
    getFallbackResponse msg rand ≠ "" := by
  unfold getFallbackResponse
  rcases hf : communityKnowledge.find? (fun kv => strIncludes (strToLower msg) kv.1) with _ | kv
  · simp only [hf]
    exact fallbacks_ne_empty _ (List.get_mem _ _ _)
  · simp only [hf]
    exact knowledge_messages_ne_empty kv (List.mem_of_find?_eq_some hf)

theorem processResponse_ne_empty (aiResponse originalMessage : String) :
    processResponse aiResponse originalMessage ≠ "" := by
  rw [processResponse_decomp]
  apply string_ne_empty_of_pos
  rw [String.length_append, String.length_append, String.length_append]
  by_cases h : needsPersonalTone aiResponse = true
  · have : 0 < (openerPart aiResponse).length := by
      rw [openerPart, if_pos h]
      decide
    omega
  · have hor : strIncludes aiResponse "I " = true ∨ strIncludes aiResponse "I'm" = true := by
      cases hx : strIncludes aiResponse "I " with
      | true => simp [hx]
      | false =>
        cases hy : strIncludes aiResponse "I'm" with
        | true => simp [hy]
        | false =>
          exfalso
          apply h
          unfold needsPersonalTone
          rw [hx, hy]
          rfl
    have hai : aiResponse ≠ "" := by
      intro he
      rw [he] at hor
      rcases hor with hx | hx <;> exact absurd hx (by decide)
    have : 0 < aiResponse.length := by
      rcases Nat.eq_zero_or_pos aiResponse.length with h0 | h1
      · exact absurd (string_eq_empty_of_length h0) hai
      · exact h1
    omega

theorem relevant_eq_table (msg : String) :
    getRelevantUKResources msg =
      ((ukResourceTable.filter
          (fun e => e.1.any (fun k => strIncludes (strToLower msg) k))).map Prod.snd).flatten := by
  simp only [getRelevantUKResources, ukResourceTable, List.filter_cons, List.filter_nil,
    List.any_cons, List.any_nil, Bool.or_false]
  split_ifs <;> rfl

theorem relevant_nodup (msg : String) : (getRelevantUKResources msg).Nodup := by
  simp only [getRelevantUKResources]
  split_ifs <;> decide

/-! ## Helper lemmas: provider retry loop -/

theorem generate_ok1 (p : Nat → Except String String) (r : String)
    (h1 : attemptResult p 1 = .ok r) :
    generateResponse p = (.ok r, []) := by
  simp [generateResponse, generateGo, h1]

theorem generate_ok2 (p : Nat → Except String String) (e1 r : String)
    (h1 : attemptResult p 1 = .error e1) (h2 : attemptResult p 2 = .ok r) :
    generateResponse p = (.ok r, [groqRetryDelay * 1]) := by
  simp [generateResponse, generateGo, h1, h2]

theorem generate_ok3 (p : Nat → Except String String) (e1 e2 r : String)
    (h1 : attemptResult p 1 = .error e1) (h2 : attemptResult p 2 = .error e2)
    (h3 : attemptResult p 3 = .ok r) :
    generateResponse p = (.ok r, [groqRetryDelay * 1, groqRetryDelay * 2]) := by
  simp [generateResponse, generateGo, h1, h2, h3]

theorem generate_fail (p : Nat → Except String String) (e1 e2 e3 : String)
    (h1 : attemptResult p 1 = .error e1) (h2 : attemptResult p 2 = .error e2)
    (h3 : attemptResult p 3 = .error e3) :
    generateResponse p =
      (.error ("GROQ API failed after 3 attempts: " ++ e3),
       [groqRetryDelay * 1, groqRetryDelay * 2]) := by
  simp [generateResponse, generateGo, h1, h2, h3, groqMaxRetries]
  congr 1

/-! ## Helper lemmas: chat orchestrator -/

theorem emergencyText_ne_empty : emergencyText ≠ "" := by decide

theorem chatFallback_cases {σ : Type} (store : StoreOps σ) (rand : Fin 5)
    (msg cid : String) (s : σ) :
    ∃ rp s', chatFallback store rand msg cid s = (.reply rp, s') ∧
      (rp.mode = "fallback" ∨ rp.mode = "emergency") ∧ rp.response ≠ "" := by
  simp only [chatFallback]
  rcases hm : store.addMessage s cid "assistant" (getFallbackResponse msg rand)
      (some fallbackMeta) with ⟨res, s4⟩
  cases res with
  | error e => exact ⟨emergencyReply, s4, rfl, Or.inr rfl, emergencyText_ne_empty⟩
  | ok v =>
      exact ⟨{ status := 200, response := getFallbackResponse msg rand,
               model := "ivor_community_knowledge", source := "qtipoc_local_knowledge",
               confidence := 85, mode := "fallback", conversation_id := some cid }, s4,
             rfl, Or.inl rfl, getFallbackResponse_ne_empty msg rand⟩

theorem chatTurn_cases {σ : Type} (store : StoreOps σ)
    (provider : String → Nat → Except String String) (rand : Fin 5)
    (msg cid : String) (s1 : σ) :
    ∃ rp s', chatTurn store provider rand msg cid s1 = (.reply rp, s') ∧
      (rp.mode = "groq" ∨ rp.mode = "fallback" ∨ rp.mode = "emergency") ∧
      rp.response ≠ "" := by
  unfold chatTurn
  rcases hu : store.addMessage s1 cid "user" msg none with ⟨r2, s2⟩
  cases r2 with
  | error e => exact ⟨emergencyReply, s2, rfl, Or.inr (Or.inr rfl), emergencyText_ne_empty⟩
  | ok v =>
    rcases hg : (generateResponse (provider (enhancePrompt msg))).1 with e | ai
    · obtain ⟨rp, s', heq, hmode, hne⟩ := chatFallback_cases store rand msg cid s2
      exact ⟨rp, s', heq, Or.inr hmode, hne⟩
    · dsimp only
      rcases ha : store.addMessage s2 cid "assistant" (processResponse ai msg)
          (some groqMeta) with ⟨r3, s3⟩
      cases r3 with
      | ok v2 =>
          exact ⟨{ status := 200, response := processResponse ai msg,
                   model := "groq_llama2-70b", source := "groq_api", confidence := 95,
                   mode := "groq", conversation_id := some cid }, s3, rfl, Or.inl rfl,
                 processResponse_ne_empty ai msg⟩
      | error e =>
          obtain ⟨rp, s', heq, hmode, hne⟩ := chatFallback_cases store rand msg cid s3
          exact ⟨rp, s', heq, Or.inr hmode, hne⟩

theorem chatTurn_provider_ok {σ : Type} (store : StoreOps σ) (hT : StoreTotal store)
    (provider : String → Nat → Except String String) (rand : Fin 5)
    (msg cid : String) (s1 : σ) (ai : String)
    (hg : (generateResponse (provider (enhancePrompt msg))).1 = .ok ai) :
    ∃ s', chatTurn store provider rand msg cid s1 =
      (.reply { status := 200, response := processResponse ai msg,
                model := "groq_llama2-70b", source := "groq_api", confidence := 95,
                mode := "groq", conversation_id := some cid }, s') := by
  obtain ⟨s2, hu⟩ := hT.2 s1 cid "user" msg none
  obtain ⟨s3, ha⟩ := hT.2 s2 cid "assistant" (processResponse ai msg) (some groqMeta)
  exact ⟨s3, by simp [chatTurn, hu, hg, ha]⟩

theorem chatTurn_provider_fail {σ : Type} (store : StoreOps σ) (hT : StoreTotal store)
    (provider : String → Nat → Except String String) (rand : Fin 5)
    (msg cid : String) (s1 : σ) (err : String)
    (hg : (generateResponse (provider (enhancePrompt msg))).1 = .error err) :
    ∃ s', chatTurn store provider rand msg cid s1 =
      (.reply { status := 200, response := getFallbackResponse msg rand,
                model := "ivor_community_knowledge", source := "qtipoc_local_knowledge",
                confidence := 85, mode := "fallback", conversation_id := some cid }, s') := by
  obtain ⟨s2, hu⟩ := hT.2 s1 cid "user" msg none
  obtain ⟨s4, hf⟩ := hT.2 s2 cid "assistant" (getFallbackResponse msg rand) (some fallbackMeta)
  exact ⟨s4, by simp [chatTurn, chatFallback, hu, hg, hf]⟩

theorem chatPost_total_turn {σ : Type} (store : StoreOps σ) (hT : StoreTotal store)
    (provider : String → Nat → Except String String) (rand : Fin 5)
    (message : String) (conversationId userId : Option String) (s : σ)
    (hv : validMessage message = true) :
    ∃ cid s1, chatPost store provider rand message conversationId userId s =
      chatTurn store provider rand (strTrim message) cid s1 := by
  unfold chatPost
  rw [if_neg (by simp [hv] : ¬((!validMessage message) = true))]
  cases conversationId with
  | some c => exact ⟨c, s, rfl⟩
  | none =>
      obtain ⟨cid, s1, hc⟩ := hT.1 s userId
      refine ⟨cid, s1, ?_⟩
      dsimp only
      rw [hc]

theorem generate_ok_of_some_attempt (p : Nat → Except String String)
    (h : ∃ k r, 1 ≤ k ∧ k ≤ 3 ∧ attemptResult p k = .ok r) :
    ∃ r, (generateResponse p).1 = .ok r := by
  cases ha1 : attemptResult p 1 with
  | ok r => exact ⟨r, by rw [generate_ok1 p r ha1]⟩
  | error e1 =>
    cases ha2 : attemptResult p 2 with
    | ok r => exact ⟨r, by rw [generate_ok2 p e1 r ha1 ha2]⟩
    | error e2 =>
      cases ha3 : attemptResult p 3 with
      | ok r => exact ⟨r, by rw [generate_ok3 p e1 e2 r ha1 ha2 ha3]⟩
      | error e3 =>
        exfalso
        obtain ⟨k, r, hk1, hk3, hok⟩ := h
        have hcase : k = 1 ∨ k = 2 ∨ k = 3 := by omega
        rcases hcase with hk | hk | hk <;> subst hk
        · rw [ha1] at hok
          exact Except.noConfusion hok
        · rw [ha2] at hok
          exact Except.noConfusion hok
        · rw [ha3] at hok
          exact Except.noConfusion hok

theorem chatPost_trace_fail (provider : String → Nat → Except String String) (rand : Fin 5)
    (message : String) (conversationId userId : Option String) (err : String)
    (hv : validMessage message = true)
    (hg : (generateResponse (provider (enhancePrompt (strTrim message)))).1 = .error err) :
    chatPost traceStore provider rand message conversationId userId [] =
      (.reply { status := 200, response := getFallbackResponse (strTrim message) rand,
                model := "ivor_community_knowledge", source := "qtipoc_local_knowledge",
                confidence := 85, mode := "fallback",
                conversation_id := some (conversationId.getD "conv") },
       [(conversationId.getD "conv", "user", strTrim message, none),
        (conversationId.getD "conv", "assistant",
         getFallbackResponse (strTrim message) rand, some fallbackMeta)]) := by
  unfold chatPost
  rw [if_neg (by simp [hv] : ¬((!validMessage message) = true))]
  cases conversationId with
  | some c => simp [chatTurn, chatFallback, traceStore, hg, Option.getD]
  | none => simp [chatTurn, chatFallback, traceStore, hg, Option.getD]

/-! ## Claim theorems -/

/-- C1, counterexample: a valid request whose provider call succeeds gets a
reply whose `mode` is the literal `"groq"`, which is none of the three mode
names `provider` / `fallback` / `emergency` the claim lists. -/
theorem c1_mode_groq_not_provider :
    ∃ rp : ChatReply,
      (chatPost traceStore (fun _ _ => Except.ok "I am glad you reached out, friend.") 0
        "hello there" none none []).1 = .reply rp ∧
      validMessage "hello there" = true ∧
      rp.mode = "groq" ∧ rp.mode ≠ "provider" ∧ rp.mode ≠ "fallback" ∧
      rp.mode ≠ "emergency" := by
  refine ⟨{ status := 200, response := "I am glad you reached out, friend.",
            model := "groq_llama2-70b", source := "groq_api", confidence := 95,
            mode := "groq", conversation_id := some "conv" },
          by decide, by decide, rfl, by decide, by decide, by decide⟩

/-- C1 (amended): for every valid chat request (trimmed message of 1-2000
characters), independently of the provider oracle and of which store writes
succeed or throw, the chat route returns a JSON reply whose `mode` is one of
the code's three tags `groq` / `fallback` / `emergency` (the spec's
provider / fallback / emergency tiers) and whose `response` is non-empty. -/
theorem c1_chat_reply_tagged_nonempty {σ : Type} (store : StoreOps σ)
    (provider : String → Nat → Except String String) (rand : Fin 5)
    (message : String) (conversationId userId : Option String) (s : σ)
    (hv : validMessage message = true) :
    ∃ rp s', chatPost store provider rand message conversationId userId s = (.reply rp, s') ∧
      (rp.mode = "groq" ∨ rp.mode = "fallback" ∨ rp.mode = "emergency") ∧
      rp.response ≠ "" := by
  unfold chatPost
  rw [if_neg (by simp [hv] : ¬((!validMessage message) = true))]
  cases conversationId with
  | some c =>
      dsimp only
      exact chatTurn_cases store provider rand (strTrim message) c s
  | none =>
      dsimp only
      rcases hc : store.createConversation s userId with ⟨cres, s1⟩
      cases cres with
      | error e => exact ⟨emergencyReply, s1, rfl, Or.inr (Or.inr rfl), emergencyText_ne_empty⟩
      | ok cid => exact chatTurn_cases store provider rand (strTrim message) cid s1

/-- C1 witness: the amended claim applied to a concrete valid request. -/
theorem c1_chat_reply_tagged_nonempty_witness :
    validMessage "hello" = true ∧
    (∃ rp s', chatPost traceStore (fun _ _ => Except.error "down") 0 "hello" none none [] =
        (.reply rp, s') ∧
      (rp.mode = "groq" ∨ rp.mode = "fallback" ∨ rp.mode = "emergency") ∧
      rp.response ≠ "") :=
  ⟨by decide,
   c1_chat_reply_tagged_nonempty traceStore (fun _ _ => Except.error "down") 0 "hello"
     none none [] (by decide)⟩

/-- C2, counterexample: when every provider attempt fails, the persisted
assistant metadata has `fallback_reason = "groq_api_unavailable"` and
`source = "qtipoc_local_knowledge"`, not the claim's literal
`"provider_unavailable"` / `"local_knowledge"`, and the success tag is
`"groq"`, not `"provider"`. -/
theorem c2_fallback_reason_literal :
    (chatPost traceStore (fun _ _ => Except.error "ECONNREFUSED") 0 "hi" none none []).2 =
      [("conv", "user", "hi", none),
       ("conv", "assistant", getFallbackResponse "hi" 0, some fallbackMeta)] ∧
    fallbackMeta.fallback_reason = some "groq_api_unavailable" ∧
    fallbackMeta.fallback_reason ≠ some "provider_unavailable" ∧
    fallbackMeta.source = "qtipoc_local_knowledge" ∧
    fallbackMeta.source ≠ "local_knowledge" := by
  refine ⟨by decide, rfl, by decide, rfl, by decide⟩

/-- C2 (amended): for every valid chat request against a store whose writes
all succeed, if all 3 provider completion attempts fail then the reply and
the persisted assistant message have mode `fallback` with metadata
`model = ivor_community_knowledge`, `source = qtipoc_local_knowledge`,
`confidence = 0.85`, `fallback_reason = groq_api_unavailable`; if any of the
3 attempts succeeds, the reply has mode `groq` with confidence 0.95. -/
theorem c2_mode_by_provider_attempts {σ : Type} (store : StoreOps σ) (hT : StoreTotal store)
    (provider : String → Nat → Except String String) (rand : Fin 5)
    (message : String) (conversationId userId : Option String) (s : σ)
    (hv : validMessage message = true) :
    ((∀ k, 1 ≤ k → k ≤ 3 →
        ∃ e, attemptResult (provider (enhancePrompt (strTrim message))) k = .error e) →
      (∃ rp s', chatPost store provider rand message conversationId userId s = (.reply rp, s') ∧
         rp.mode = "fallback" ∧ rp.response = getFallbackResponse (strTrim message) rand ∧
         rp.confidence = 85 ∧ rp.source = "qtipoc_local_knowledge" ∧
         rp.model = "ivor_community_knowledge") ∧
      (chatPost traceStore provider rand message conversationId userId []).2 =
        [(conversationId.getD "conv", "user", strTrim message, none),
         (conversationId.getD "conv", "assistant",
          getFallbackResponse (strTrim message) rand, some fallbackMeta)] ∧
      fallbackMeta = { model := "ivor_community_knowledge",
                       source := "qtipoc_local_knowledge", confidence := 85,
                       fallback_reason := some "groq_api_unavailable" }) ∧
    ((∃ k r, 1 ≤ k ∧ k ≤ 3 ∧
        attemptResult (provider (enhancePrompt (strTrim message))) k = .ok r) →
      ∃ rp s', chatPost store provider rand message conversationId userId s = (.reply rp, s') ∧
        rp.mode = "groq" ∧ rp.confidence = 95 ∧ rp.source = "groq_api") := by
  constructor
  · intro hall
    obtain ⟨e1, h1⟩ := hall 1 (by omega) (by omega)
    obtain ⟨e2, h2⟩ := hall 2 (by omega) (by omega)
    obtain ⟨e3, h3⟩ := hall 3 (by omega) (by omega)
    have hg1 : (generateResponse (provider (enhancePrompt (strTrim message)))).1 =
        .error ("GROQ API failed after 3 attempts: " ++ e3) := by
      rw [generate_fail (provider (enhancePrompt (strTrim message))) e1 e2 e3 h1 h2 h3]
    refine ⟨?_, ?_, rfl⟩
    · obtain ⟨cid, s1, hpost⟩ :=
        chatPost_total_turn store hT provider rand message conversationId userId s hv
      obtain ⟨s', hturn⟩ :=
        chatTurn_provider_fail store hT provider rand (strTrim message) cid s1 _ hg1
      exact ⟨_, s', by rw [hpost, hturn], rfl, rfl, rfl, rfl, rfl⟩
    · rw [chatPost_trace_fail provider rand message conversationId userId _ hv hg1]
  · intro hsome
    obtain ⟨r, hg1⟩ := generate_ok_of_some_attempt _ hsome
    obtain ⟨cid, s1, hpost⟩ :=
      chatPost_total_turn store hT provider rand message conversationId userId s hv
    obtain ⟨s', hturn⟩ :=
      chatTurn_provider_ok store hT provider rand (strTrim message) cid s1 r hg1
    exact ⟨_, s', by rw [hpost, hturn], rfl, rfl, rfl⟩

/-- C2 witness: the amended claim applied to the trace store (whose writes
all succeed) at a concrete valid request. -/
theorem c2_mode_by_provider_attempts_witness :
    StoreTotal traceStore ∧ validMessage "hi" = true ∧
    (((∀ k, 1 ≤ k → k ≤ 3 →
        ∃ e, attemptResult ((fun _ _ => Except.error "down") (enhancePrompt (strTrim "hi"))) k =
          .error e) →
      (∃ rp s', chatPost traceStore (fun _ _ => Except.error "down") 0 "hi" none none [] =
          (.reply rp, s') ∧
         rp.mode = "fallback" ∧ rp.response = getFallbackResponse (strTrim "hi") 0 ∧
         rp.confidence = 85 ∧ rp.source = "qtipoc_local_knowledge" ∧
         rp.model = "ivor_community_knowledge") ∧
      (chatPost traceStore (fun _ _ => Except.error "down") 0 "hi" none none []).2 =
        [((none : Option String).getD "conv", "user", strTrim "hi", none),
         ((none : Option String).getD "conv", "assistant",
          getFallbackResponse (strTrim "hi") 0, some fallbackMeta)] ∧
      fallbackMeta = { model := "ivor_community_knowledge",
                       source := "qtipoc_local_knowledge", confidence := 85,
                       fallback_reason := some "groq_api_unavailable" }) ∧
    ((∃ k r, 1 ≤ k ∧ k ≤ 3 ∧
        attemptResult ((fun _ _ => Except.error "down") (enhancePrompt (strTrim "hi"))) k =
          .ok r) →
      ∃ rp s', chatPost traceStore (fun _ _ => Except.error "down") 0 "hi" none none [] =
        (.reply rp, s') ∧
        rp.mode = "groq" ∧ rp.confidence = 95 ∧ rp.source = "groq_api")) :=
  ⟨⟨fun s u => ⟨"conv", s, rfl⟩, fun s cid role content meta => ⟨s ++ [(cid, role, content, meta)], rfl⟩⟩,
   by decide,
   c2_mode_by_provider_attempts traceStore
     ⟨fun s u => ⟨"conv", s, rfl⟩, fun s cid role content meta => ⟨s ++ [(cid, role, content, meta)], rfl⟩⟩
     (fun _ _ => Except.error "down") 0 "hi" none none [] (by decide)⟩

/-- C3: for every input text and random pick, the persona fallback returns
the canned response of the first knowledge-table topic (declaration order:
mental health, housing, benefits, coming out, discrimination, healthcare)
whose keyword is a case-insensitive substring of the input; with no topic
match it returns one of the 5 fixed generic fallback messages; the result is
always non-empty (and the Lean function is total, so no exception). -/
theorem c3_fallback_first_topic_or_generic (msg : String) (rand : Fin 5) :
    getFallbackResponse msg rand ≠ "" ∧
    (match communityKnowledge.filter (fun kv => strIncludes (strToLower msg) kv.1) with
     | [] => getFallbackResponse msg rand ∈ fallbackResponses
     | kv :: _ => getFallbackResponse msg rand = kv.2.message) := by
  refine ⟨getFallbackResponse_ne_empty msg rand, ?_⟩
  have hf := find_eq_filter_head communityKnowledge (fun kv => strIncludes (strToLower msg) kv.1)
  rcases hh : communityKnowledge.filter (fun kv => strIncludes (strToLower msg) kv.1)
    with _ | ⟨kv, rest⟩
  · rw [hh] at hf
    rw [hh]
    simp only [getFallbackResponse, hf, List.head?_nil]
    exact List.get_mem _ _ _
  · rw [hh] at hf
    rw [hh]
    simp only [getFallbackResponse, hf, List.head?_cons]

/-- C4: the provider completion makes at most 3 attempts (its result depends
only on attempts 1-3); a throwing or empty attempt counts as failed; between
attempt k and k+1 it waits `retryDelay * k`; the first successful attempt
returns that (trimmed) reply with no further waits; after a 3rd failed
attempt it fails with the error carrying the attempt count and the last
underlying error's message. -/
theorem c4_provider_retry_policy (p : Nat → Except String String) :
    (∀ q : Nat → Except String String,
       (∀ k, 1 ≤ k → k ≤ 3 → q k = p k) → generateResponse q = generateResponse p) ∧
    (∀ r, attemptResult p 1 = .ok r → generateResponse p = (.ok r, [])) ∧
    (∀ e1 r, attemptResult p 1 = .error e1 → attemptResult p 2 = .ok r →
       generateResponse p = (.ok r, [groqRetryDelay * 1])) ∧
    (∀ e1 e2 r, attemptResult p 1 = .error e1 → attemptResult p 2 = .error e2 →
       attemptResult p 3 = .ok r →
       generateResponse p = (.ok r, [groqRetryDelay * 1, groqRetryDelay * 2])) ∧
    (∀ e1 e2 e3, attemptResult p 1 = .error e1 → attemptResult p 2 = .error e2 →
       attemptResult p 3 = .error e3 →
       generateResponse p =
         (.error ("GROQ API failed after 3 attempts: " ++ e3),
          [groqRetryDelay * 1, groqRetryDelay * 2])) := by
  refine ⟨?_, fun r h => generate_ok1 p r h,
    fun e1 r h1 h2 => generate_ok2 p e1 r h1 h2,
    fun e1 e2 r h1 h2 h3 => generate_ok3 p e1 e2 r h1 h2 h3,
    fun e1 e2 e3 h1 h2 h3 => generate_fail p e1 e2 e3 h1 h2 h3⟩
  intro q hq
  have a1 : attemptResult q 1 = attemptResult p 1 := by
    unfold attemptResult
    rw [hq 1 (by omega) (by omega)]
  have a2 : attemptResult q 2 = attemptResult p 2 := by
    unfold attemptResult
    rw [hq 2 (by omega) (by omega)]
  have a3 : attemptResult q 3 = attemptResult p 3 := by
    unfold attemptResult
    rw [hq 3 (by omega) (by omega)]
  cases hp1 : attemptResult p 1 with
  | ok r => rw [generate_ok1 q r (a1.trans hp1), generate_ok1 p r hp1]
  | error e1 =>
    cases hp2 : attemptResult p 2 with
    | ok r => rw [generate_ok2 q e1 r (a1.trans hp1) (a2.trans hp2),
        generate_ok2 p e1 r hp1 hp2]
    | error e2 =>
      cases hp3 : attemptResult p 3 with
      | ok r => rw [generate_ok3 q e1 e2 r (a1.trans hp1) (a2.trans hp2) (a3.trans hp3),
          generate_ok3 p e1 e2 r hp1 hp2 hp3]
      | error e3 => rw [generate_fail q e1 e2 e3 (a1.trans hp1) (a2.trans hp2) (a3.trans hp3),
          generate_fail p e1 e2 e3 hp1 hp2 hp3]

/-- C4 witness: a provider that always throws exhausts the 3 attempts, waits
1000 and then 2000 between them, and surfaces the attempt count with the
last error message. -/
theorem c4_provider_retry_policy_witness :
    generateResponse (fun _ => Except.error "boom") =
      (.error ("GROQ API failed after 3 attempts: boom"), [1000, 2000]) :=
  (c4_provider_retry_policy (fun _ => Except.error "boom")).2.2.2.2 "boom" "boom" "boom"
    rfl rfl rfl

/-- C6: a post-processed reply decomposes as opener-part, the AI reply, a
solidarity segment and a UK-resource segment, in that order; the fixed
solidarity sentence is the segment exactly when the original message matches
a support keyword (case-insensitive substring), and the segment is empty
otherwise, so the sentence is appended exactly once or not at all within a
single call. -/
theorem c6_solidarity_appended_iff_support (aiResponse originalMessage : String) :
    processResponse aiResponse originalMessage =
      openerPart aiResponse ++ aiResponse ++ solidarityPart originalMessage ++
        ukPart originalMessage ∧
    (isSeekingSupport originalMessage = true →
       solidarityPart originalMessage = solidaritySentence) ∧
    (isSeekingSupport originalMessage = false → solidarityPart originalMessage = "") :=
  ⟨processResponse_decomp aiResponse originalMessage,
   fun h => by rw [solidarityPart, if_pos h],
   fun h => by rw [solidarityPart, if_neg (by simp [h])]⟩

/-- C6 witness: a support-seeking message gets the solidarity sentence as
its segment. -/
theorem c6_solidarity_appended_iff_support_witness :
    processResponse "Take care." "I feel so alone" =
      openerPart "Take care." ++ "Take care." ++ solidarityPart "I feel so alone" ++
        ukPart "I feel so alone" ∧
    isSeekingSupport "I feel so alone" = true ∧
    solidarityPart "I feel so alone" = solidaritySentence :=
  ⟨(c6_solidarity_appended_iff_support "Take care." "I feel so alone").1,
   by decide,
   (c6_solidarity_appended_iff_support "Take care." "I feel so alone").2.1 (by decide)⟩

/-- C7: when the original message matches the resource-seeking heuristic,
the post-processed reply carries a UK-resource segment listing exactly
`getRelevantUKResources`, which equals the ordered union (source declaration
order) of the resource lists of the matched rows of the fixed
keyword-to-resources table and contains no duplicate names. -/
theorem c7_uk_resources_union_nodup (aiResponse originalMessage : String)
    (h : needsUKResources originalMessage = true) :
    processResponse aiResponse originalMessage =
      openerPart aiResponse ++ aiResponse ++ solidarityPart originalMessage ++
        (if (getRelevantUKResources originalMessage).length > 0 then
          ukResourcesSuffix (getRelevantUKResources originalMessage)
        else "") ∧
    getRelevantUKResources originalMessage =
      ((ukResourceTable.filter
          (fun e => e.1.any (fun k => strIncludes (strToLower originalMessage) k))).map
        Prod.snd).flatten ∧
    (getRelevantUKResources originalMessage).Nodup := by
  refine ⟨?_, relevant_eq_table originalMessage, relevant_nodup originalMessage⟩
  rw [processResponse_decomp]
  unfold ukPart
  rw [if_pos h]

/-- C7 witness: a message matching the heuristic (via `housing` and `help`)
gets exactly the housing resources, without duplicates. -/
theorem c7_uk_resources_union_nodup_witness :
    needsUKResources "I need help with housing" = true ∧
    (processResponse "Here is an idea." "I need help with housing" =
      openerPart "Here is an idea." ++ "Here is an idea." ++
        solidarityPart "I need help with housing" ++
        (if (getRelevantUKResources "I need help with housing").length > 0 then
          ukResourcesSuffix (getRelevantUKResources "I need help with housing")
        else "") ∧
    getRelevantUKResources "I need help with housing" =
      ((ukResourceTable.filter
          (fun e => e.1.any (fun k => strIncludes (strToLower "I need help with housing") k))).map
        Prod.snd).flatten ∧
    (getRelevantUKResources "I need help with housing").Nodup) :=
  ⟨by decide, c7_uk_resources_union_nodup "Here is an idea." "I need help with housing" (by decide)⟩

/-- C9: the post-processed reply always contains the AI reply contiguously:
it is the AI reply with an optional fixed opener prepended and the fixed
solidarity / UK-resource segments appended, nothing removed or rewritten. -/
theorem c9_provider_reply_contiguous (aiResponse originalMessage : String) :
    ∃ pre suf, processResponse aiResponse originalMessage = pre ++ aiResponse ++ suf ∧
      (pre = "" ∨ pre = ivorOpener) ∧
      suf = solidarityPart originalMessage ++ ukPart originalMessage := by
  refine ⟨openerPart aiResponse, solidarityPart originalMessage ++ ukPart originalMessage,
    ?_, ?_, rfl⟩
  · rw [processResponse_decomp, String.append_assoc (openerPart aiResponse ++ aiResponse)]
  · unfold openerPart
    by_cases h : needsPersonalTone aiResponse = true
    · rw [if_pos h]
      exact Or.inr rfl
    · rw [if_neg h]
      exact Or.inl rfl

/-! ## Helper lemmas: conversation store -/

theorem any_id_map_update (l : List DBConversation) (cid ts : Nat) :
    ((l.map (fun c => if c.id == cid then { c with last_message_at := ts } else c)).any
      (fun c => c.id == cid)) = l.any (fun c => c.id == cid) := by
  induction l with
  | nil => rfl
  | cons c t ih =>
    simp only [List.map_cons, List.any_cons, ih]
    congr 1
    by_cases h : (c.id == cid) = true
    · rw [if_pos h]
    · rw [if_neg h]

theorem appendAll_spec (cid : Nat) (entries : List (Role × String × String)) :
    ∀ db : DB, db.conversations.any (fun c => c.id == cid) = true →
      ∃ ms db2, appendAll cid db entries = (.ok ms, db2) ∧
        db2.messages = db.messages ++ ms ∧
        (∀ m ∈ ms, m.conversation_id = cid) ∧
        ms.map (fun m => (m.role, m.content, m.metadata)) = entries ∧
        (∀ m ∈ ms, db.clock ≤ m.timestamp) ∧
        List.Pairwise (fun a b => a.timestamp < b.timestamp) ms := by
  induction entries with
  | nil =>
      intro db h
      exact ⟨[], db, rfl, by simp, by simp, rfl, by simp, List.Pairwise.nil⟩
  | cons e rest ih =>
      intro db h
      obtain ⟨role, content, metadata⟩ := e
      set newMsg : DBMessage :=
        { id := db.counter, conversation_id := cid, role := role, content := content,
          timestamp := db.clock, rating := none, metadata := metadata } with hnm
      set db1 : DB :=
        { db with counter := db.counter + 1, clock := db.clock + 1,
                  conversations := db.conversations.map (fun c =>
                    if c.id == cid then { c with last_message_at := db.clock } else c),
                  messages := db.messages ++ [newMsg] } with hdb1
      have hstep : addMessage db cid role content metadata = (.ok newMsg, db1) := by
        unfold addMessage
        rw [if_pos h]
      have hconv1 : db1.conversations.any (fun c => c.id == cid) = true := by
        rw [hdb1]
        show (db.conversations.map _).any _ = true
        rw [any_id_map_update]
        exact h
      obtain ⟨ms, db2, hrec, hmsgs, hcid, hmap, hts, hpw⟩ := ih db1 hconv1
      have hclock1 : db1.clock = db.clock + 1 := by rw [hdb1]
      refine ⟨newMsg :: ms, db2, ?_, ?_, ?_, ?_, ?_, ?_⟩
      · simp only [appendAll, hstep, hrec]
      · rw [hmsgs, hdb1]
        simp
      · intro m hm
        rcases List.mem_cons.mp hm with h1 | h1
        · rw [h1]
        · exact hcid m h1
      · simp only [List.map_cons, hmap]
      · intro m hm
        rcases List.mem_cons.mp hm with h1 | h1
        · rw [h1]
        · have := hts m h1
          omega
      · refine List.Pairwise.cons ?_ hpw
        intro m hm
        have h2 := hts m hm
        have h3 : newMsg.timestamp = db.clock := rfl
        omega

/-- C5: `addMessage` on a conversation id not in the store fails with the
foreign-key violation (the spec's `NotFoundError`), and appending any
sequence of messages to a conversation fresh from `createConversation` and
then reading `getConversationMessages` returns exactly the appended
messages, with strictly ascending timestamps. -/
theorem c5_store_notfound_and_roundtrip (db : DB)
    (hwf : ∀ m ∈ db.messages, m.conversation_id < db.counter) :
    (∀ cid role content metadata,
       db.conversations.any (fun c => c.id == cid) = false →
       addMessage db cid role content metadata = (.error .foreignKeyViolation, db)) ∧
    (∀ userId entries,
       ∃ ms db2,
         appendAll (createConversation db userId).1.id (createConversation db userId).2
           entries = (.ok ms, db2) ∧
         getConversationMessages db2 (createConversation db userId).1.id = ms ∧
         ms.map (fun m => (m.role, m.content, m.metadata)) = entries ∧
         List.Pairwise (fun a b => a.timestamp < b.timestamp) ms) := by
  constructor
  · intro cid role content metadata hno
    unfold addMessage
    rw [if_neg (by simp [hno])]
  · intro userId entries
    have hconvid : (createConversation db userId).1.id = db.counter := rfl
    have hany : (createConversation db userId).2.conversations.any
        (fun c => c.id == db.counter) = true := by
      show (db.conversations ++ [_]).any _ = true
      rw [List.any_append]
      simp
    obtain ⟨ms, db2, happ, hmsgs, hcid, hmap, hts, hpw⟩ :=
      appendAll_spec db.counter entries (createConversation db userId).2 hany
    rw [hconvid]
    refine ⟨ms, db2, happ, ?_, hmap, hpw⟩
    unfold getConversationMessages
    have hmsgs2 : db2.messages = db.messages ++ ms := by
      rw [hmsgs]
      rfl
    rw [hmsgs2, List.filter_append]
    have hleft : db.messages.filter (fun m => m.conversation_id == db.counter) = [] := by
      rw [List.filter_eq_nil_iff]
      intro m hm
      simp [Nat.ne_of_lt (hwf m hm)]
    have hright : ms.filter (fun m => m.conversation_id == db.counter) = ms := by
      rw [List.filter_eq_self]
      intro m hm
      simp [hcid m hm]
    rw [hleft, hright, List.nil_append]
    exact List.Sorted.insertionSort_eq (List.Pairwise.imp (fun h => Nat.le_of_lt h) hpw)

/-- C5 witness: the round trip at the empty store with two appended
messages, plus the missing-conversation failure. -/
theorem c5_store_notfound_and_roundtrip_witness :
    addMessage ⟨0, 0, [], [], []⟩ 7 Role.user "x" "{}" =
      (.error .foreignKeyViolation, ⟨0, 0, [], [], []⟩) ∧
    (∃ ms db2,
       appendAll (createConversation ⟨0, 0, [], [], []⟩ none).1.id
         (createConversation ⟨0, 0, [], [], []⟩ none).2
         [(Role.user, "hello", "{}"), (Role.assistant, "hi there", "{}")] = (.ok ms, db2) ∧
       getConversationMessages db2 (createConversation ⟨0, 0, [], [], []⟩ none).1.id = ms ∧
       ms.map (fun m => (m.role, m.content, m.metadata)) =
         [(Role.user, "hello", "{}"), (Role.assistant, "hi there", "{}")] ∧
       List.Pairwise (fun a b => a.timestamp < b.timestamp) ms) :=
  ⟨(c5_store_notfound_and_roundtrip ⟨0, 0, [], [], []⟩ (by simp)).1 7 Role.user "x" "{}"
     (by decide),
   (c5_store_notfound_and_roundtrip ⟨0, 0, [], [], []⟩ (by simp)).2 none
     [(Role.user, "hello", "{}"), (Role.assistant, "hi there", "{}")]⟩

/-- C8, counterexample: two successive successful feedback writes on the
same message set its `rating` twice (none, then 3, then 5): nothing enforces
the claimed at-most-once rating write. -/
theorem c8_rating_set_twice :
    (addFeedback (addMessage (createConversation ⟨0, 0, [], [], []⟩ none).2
        0 Role.user "hello" "{}").2 1 3 none none).1 = .ok () ∧
    ratingOf (addFeedback (addMessage (createConversation ⟨0, 0, [], [], []⟩ none).2
        0 Role.user "hello" "{}").2 1 3 none none).2 1 = some (some 3) ∧
    (addFeedback (addFeedback (addMessage (createConversation ⟨0, 0, [], [], []⟩ none).2
        0 Role.user "hello" "{}").2 1 3 none none).2 1 5 none none).1 = .ok () ∧
    ratingOf (addFeedback (addFeedback (addMessage (createConversation ⟨0, 0, [], [], []⟩ none).2
        0 Role.user "hello" "{}").2 1 3 none none).2 1 5 none none).2 1 = some (some 5) :=
  ⟨rfl, rfl, rfl, rfl⟩

/-- C8 (amended): every field of a stored message other than `rating` is
unchanged by every mutating store operation; the `rating` field changes only
through a feedback operation on that message's id, which sets it to that
feedback's rating (a later feedback may overwrite an earlier rating, so the
write is not once-only). -/
theorem c8_message_fields_frame (db : DB) (op : StoreMutation) (m : DBMessage)
    (hm : m ∈ db.messages) :
    ∃ m' ∈ (applyMutation db op).messages,
      m'.id = m.id ∧ m'.conversation_id = m.conversation_id ∧ m'.role = m.role ∧
      m'.content = m.content ∧ m'.timestamp = m.timestamp ∧ m'.metadata = m.metadata ∧
      (m'.rating ≠ m.rating → ∃ r text userId,
        op = .feedback m.id r text userId ∧ m'.rating = some r) := by
  cases op with
  | create userId =>
      exact ⟨m, hm, rfl, rfl, rfl, rfl, rfl, rfl, fun hc => absurd rfl hc⟩
  | addMsg cid role content metadata =>
      refine ⟨m, ?_, rfl, rfl, rfl, rfl, rfl, rfl, fun hc => absurd rfl hc⟩
      show m ∈ (addMessage db cid role content metadata).2.messages
      unfold addMessage
      by_cases h : (db.conversations.any fun c => c.id == cid) = true
      · rw [if_pos h]
        exact List.mem_append_left _ hm
      · rw [if_neg h]
        exact hm
  | feedback mid rating text userId =>
      unfold applyMutation addFeedback
      dsimp only
      by_cases h1 : rating < 1 ∨ 5 < rating
      · rw [if_pos h1]
        exact ⟨m, hm, rfl, rfl, rfl, rfl, rfl, rfl, fun hc => absurd rfl hc⟩
      · rw [if_neg h1]
        by_cases h2 : (!db.messages.any fun x => x.id == mid) = true
        · rw [if_pos h2]
          exact ⟨m, hm, rfl, rfl, rfl, rfl, rfl, rfl, fun hc => absurd rfl hc⟩
        · rw [if_neg h2]
          by_cases h3 : (m.id == mid) = true
          · have hf : (fun x => if x.id == mid then { x with rating := some rating } else x) m =
                { m with rating := some rating } := by
              simp [h3]
            refine ⟨{ m with rating := some rating }, ?_, rfl, rfl, rfl, rfl, rfl, rfl,
              fun hne => ⟨rating, text, userId, ?_, rfl⟩⟩
            · rw [← hf]
              exact List.mem_map_of_mem _ hm
            · have hid : m.id = mid := by simpa using h3
              rw [hid]
          · have hf : (fun x => if x.id == mid then { x with rating := some rating } else x) m =
                m := by
              simp [h3]
            refine ⟨m, ?_, rfl, rfl, rfl, rfl, rfl, rfl, fun hc => absurd rfl hc⟩
            rw [← hf]
            exact List.mem_map_of_mem _ hm

/-- C8 witness: a non-feedback operation leaves a stored message entirely
unchanged, fields and rating alike. -/
theorem c8_message_fields_frame_witness :
    ∃ m' ∈ (applyMutation ⟨2, 1, [⟨0, none, 0, 0⟩],
        [⟨1, 0, Role.user, "hello", 0, none, "\x7b\x7d"⟩], []⟩ (.create none)).messages,
      m'.id = 1 ∧ m'.conversation_id = 0 ∧ m'.role = Role.user ∧
      m'.content = "hello" ∧ m'.timestamp = 0 ∧ m'.metadata = "\x7b\x7d" ∧
      (m'.rating ≠ none → ∃ r text userId,
        StoreMutation.create none = .feedback 1 r text userId ∧ m'.rating = some r) :=
  c8_message_fields_frame ⟨2, 1, [⟨0, none, 0, 0⟩],
    [⟨1, 0, Role.user, "hello", 0, none, "\x7b\x7d"⟩], []⟩ (.create none)
    ⟨1, 0, Role.user, "hello", 0, none, "\x7b\x7d"⟩ (by simp)

/-- C10: when the feedback insert would violate the rating CHECK constraint
or the message foreign key, `addFeedback` fails and the store - in
particular every message's `rating` - is unchanged: the rating update runs
only after a successful insert. -/
theorem c10_feedback_insert_guard (db : DB) (mid rating : Nat) (text userId : Option String)
    (h : rating < 1 ∨ 5 < rating ∨ db.messages.any (fun m => m.id == mid) = false) :
    ∃ e, addFeedback db mid rating text userId = (.error e, db) ∧
      (addFeedback db mid rating text userId).2.messages = db.messages := by
  unfold addFeedback
  rcases h with h | h | h
  · rw [if_pos (Or.inl h)]
    exact ⟨.checkViolation, rfl, rfl⟩
  · rw [if_pos (Or.inr h)]
    exact ⟨.checkViolation, rfl, rfl⟩
  · by_cases h1 : rating < 1 ∨ 5 < rating
    · rw [if_pos h1]
      exact ⟨.checkViolation, rfl, rfl⟩
    · rw [if_neg h1, if_pos (by simp [h])]
      exact ⟨.foreignKeyViolation, rfl, rfl⟩

/-- C10 witness: a rating of 6 on an existing message fails and leaves the
message table (and so the message's rating) untouched. -/
theorem c10_feedback_insert_guard_witness :
    ∃ e, addFeedback ⟨2, 1, [⟨0, none, 0, 0⟩],
        [⟨1, 0, Role.user, "hello", 0, none, "\x7b\x7d"⟩], []⟩ 1 6 none none =
      (.error e, ⟨2, 1, [⟨0, none, 0, 0⟩],
        [⟨1, 0, Role.user, "hello", 0, none, "\x7b\x7d"⟩], []⟩) ∧
      (addFeedback ⟨2, 1, [⟨0, none, 0, 0⟩],
        [⟨1, 0, Role.user, "hello", 0, none, "\x7b\x7d"⟩], []⟩ 1 6 none none).2.messages =
        [⟨1, 0, Role.user, "hello", 0, none, "\x7b\x7d"⟩] :=
  c10_feedback_insert_guard ⟨2, 1, [⟨0, none, 0, 0⟩],
    [⟨1, 0, Role.user, "hello", 0, none, "\x7b\x7d"⟩], []⟩ 1 6 none none (by decide)
